import Mathlib

/-!
Shallow embedding of the SimpleMicroservices repository (FastAPI service over
two in-memory dictionaries: courses and enrollments).

Source files embedded: `src/main.py`, `src/models/course.py`,
`src/models/enrollment.py`.

Modelling conventions:
* `UUID` is modelled as `Nat` (an abstract 128-bit value; only equality matters).
* `datetime` values are modelled as `Nat` tick counts (`Timestamp`); `date`
  values as `Nat` (`CalDate`).  Each call of `datetime.utcnow()` in the code is
  an explicit `Timestamp` parameter of the embedded operation; the two
  `default_factory` calls of `CourseRead`/`EnrollmentRead` (one for
  `created_at`, one for `updated_at`) are two separate parameters, because the
  code reads the clock once per field.
* A pydantic update payload field is a tri-state (`PatchField`): absent from
  the JSON body (excluded by `model_dump(exclude_unset=True)`), present but
  `null` (excluded by the `if v is not None` filter in the handlers), or
  present with a value.
* The Python dicts are association lists `List (UUID × _)`; insertion appends
  (new key), assignment to an existing key replaces in place, `del` removes the
  entry — matching CPython dict semantics for the states reachable here
  (unique keys).
* Handlers return `Except ApiError _ × Store`: raising `HTTPException` before
  any mutation yields the error together with the untouched store.
* The course-code pattern `^[A-Z]{2,6}\s?\d{3,4}$` is embedded over ASCII
  character classes (`[A-Z]`, `\s` as ASCII whitespace, `\d` as ASCII digits);
  the character classes are pairwise disjoint, so the greedy scan below agrees
  with the backtracking regex engine.
-/

set_option autoImplicit false

namespace SimpleMicroservices

abbrev UUID := Nat
abbrev Timestamp := Nat
abbrev CalDate := Nat

/-- Tri-state of one field of a pydantic update payload: absent from the JSON
body, present but `null`, or present with value `v`. -/
inductive PatchField (α : Type) where
  | unset
  | null
  | set (v : α)
deriving DecidableEq

namespace PatchField

/-- The merge the handlers perform for a required stored field: only a
present-and-non-null patch field overwrites the stored value. -/
def apply {α : Type} : PatchField α → α → α
  | .set v, _ => v
  | .unset, old => old
  | .null, old => old

/-- The merge for an optional stored field: a present-and-non-null patch value
`v` stores `some v`; absent or `null` keeps the stored value. -/
def applyOpt {α : Type} : PatchField α → Option α → Option α
  | .set v, _ => some v
  | .unset, old => old
  | .null, old => old

/-- Whether the field is present-and-non-null in the patch. -/
def isSet {α : Type} : PatchField α → Bool
  | .set _ => true
  | _ => false

end PatchField

/-! ### The in-memory keyed table (Python `dict`) -/

/-- Membership test `id in d` on a Python dict. -/
def storeMem {α : Type} : List (UUID × α) → UUID → Bool
  | [], _ => false
  | p :: rest, i => decide (p.1 = i) || storeMem rest i

/-- Lookup `d[id]` on a Python dict (`none` when absent). -/
def storeGet {α : Type} : List (UUID × α) → UUID → Option α
  | [], _ => none
  | p :: rest, i => if p.1 = i then some p.2 else storeGet rest i

/-- Assignment `d[id] = v` for a fresh key: appends (CPython dicts keep insertion order). -/
def storeInsert {α : Type} (st : List (UUID × α)) (i : UUID) (v : α) : List (UUID × α) :=
  st ++ [(i, v)]

/-- Assignment `d[id] = v` for a present key: replaces the entry in place. -/
def storeSet {α : Type} : List (UUID × α) → UUID → α → List (UUID × α)
  | [], _, _ => []
  | p :: rest, i, v => (if p.1 = i then (i, v) else p) :: storeSet rest i v

/-- Deletion `del d[id]`: removes the entry. -/
def storeDel {α : Type} : List (UUID × α) → UUID → List (UUID × α)
  | [], _ => []
  | p :: rest, i => if p.1 = i then storeDel rest i else p :: storeDel rest i

/-! ### Course data model (`src/models/course.py`) -/

/-- Model of `CourseCreate` (= `CourseBase`): the create payload after validation.
Parse-time defaults of `CourseBase` (`description = None`, `credits = 3`,
`start_date = end_date = None`) are applied before this structure is formed. -/
structure CourseCreate where
  code : String
  title : String
  description : Option String
  credits : Int
  start_date : Option CalDate
  end_date : Option CalDate
deriving DecidableEq

/-- Model of `CourseRead`: the stored record; `id`, `created_at`, `updated_at` are
filled by `default_factory` calls when not supplied (which is always the case
in `create_course`). -/
structure CourseRead where
  code : String
  title : String
  description : Option String
  credits : Int
  start_date : Option CalDate
  end_date : Option CalDate
  id : UUID
  created_at : Timestamp
  updated_at : Timestamp
deriving DecidableEq

/-- Model of `CourseUpdate`: every field optional, each a tri-state. -/
structure CourseUpdate where
  code : PatchField String
  title : PatchField String
  description : PatchField String
  credits : PatchField Int
  start_date : PatchField CalDate
  end_date : PatchField CalDate
deriving DecidableEq

/-! ### Course validation (pydantic constraints of `course.py`) -/

def isUpperAZ (c : Char) : Bool := 'A' ≤ c && c ≤ 'Z'

def isAsciiDigit (c : Char) : Bool := '0' ≤ c && c ≤ '9'

/-- ASCII portion of the regex class `\s`. -/
def isSpaceChar (c : Char) : Bool :=
  c = ' ' || c = '\t' || c = '\n' || c = '\r' || c = '\x0b' || c = '\x0c'

/-- Constraint `StringConstraints(pattern=r"^[A-Z]{2,6}\s?\d{3,4}$")` of `CourseCode`. -/
def matchesCourseCode (s : String) : Bool :=
  let cs := s.toList
  let letters := cs.takeWhile isUpperAZ
  let rest := cs.dropWhile isUpperAZ
  let digits :=
    match rest with
    | [] => []
    | c :: t => if isSpaceChar c then t else rest
  decide (2 ≤ letters.length) && decide (letters.length ≤ 6) &&
    digits.all isAsciiDigit && decide (3 ≤ digits.length) && decide (digits.length ≤ 4)

/-- Constraint `Field(3, ge=0, le=6)` on `credits`. -/
def validCredits (n : Int) : Bool := decide (0 ≤ n) && decide (n ≤ 6)

/-- Pydantic validation of a `CourseCreate` payload: the `code` pattern and the
`credits` range are the only constraints; `title` is a bare `str` and the
remaining fields are unconstrained optionals. -/
def validCourseCreate (c : CourseCreate) : Bool :=
  matchesCourseCode c.code && validCredits c.credits

/-- Pydantic validation of a `CourseUpdate` payload: the constraints apply only
to present-and-non-null fields. -/
def validCourseUpdate (p : CourseUpdate) : Bool :=
  (match p.code with
   | .set s => matchesCourseCode s
   | _ => true) &&
  (match p.credits with
   | .set n => validCredits n
   | _ => true)

/-! ### Course endpoints (`src/main.py`) -/

inductive ApiError where
  | notFound (detail : String)
  | duplicateKey (detail : String)
deriving DecidableEq

/-- Equality of `Except` results is decidable (needed to evaluate concrete
request outcomes). -/
def exceptDecEq {ε α : Type} [DecidableEq ε] [DecidableEq α] :
    (a b : Except ε α) → Decidable (a = b)
  | .error e1, .error e2 =>
    if h : e1 = e2 then isTrue (by rw [h]) else isFalse (by simp [h])
  | .error _, .ok _ => isFalse (by simp)
  | .ok _, .error _ => isFalse (by simp)
  | .ok v1, .ok v2 =>
    if h : v1 = v2 then isTrue (by rw [h]) else isFalse (by simp [h])

instance {ε α : Type} [DecidableEq ε] [DecidableEq α] : DecidableEq (Except ε α) :=
  exceptDecEq

abbrev CourseStore := List (UUID × CourseRead)

/-- Handler `create_course`: builds `CourseRead(**course.model_dump())` — the
`default_factory` calls supply `genId` and the two clock reads `tCreated`,
`tUpdated` — then raises 400 on id collision, else stores the record. -/
def create_course (st : CourseStore) (course : CourseCreate) (genId : UUID)
    (tCreated tUpdated : Timestamp) : Except ApiError CourseRead × CourseStore :=
  let crs : CourseRead :=
    { code := course.code, title := course.title, description := course.description,
      credits := course.credits, start_date := course.start_date,
      end_date := course.end_date, id := genId, created_at := tCreated,
      updated_at := tUpdated }
  if storeMem st crs.id then
    (.error (.duplicateKey "Course with this ID already exists"), st)
  else
    (.ok crs, storeInsert st crs.id crs)

/-- Handler `get_course`: 404 when absent, else the stored record; the store is never
mutated. -/
def get_course (st : CourseStore) (course_id : UUID) :
    Except ApiError CourseRead × CourseStore :=
  match storeGet st course_id with
  | none => (.error (.notFound "Course not found"), st)
  | some c => (.ok c, st)

/-- The dictionary-comprehension merge of `update_course`:
`current.model_copy(update={k: v for k, v in patch.model_dump(exclude_unset=True).items() if v is not None})`. -/
def applyCoursePatch (cur : CourseRead) (patch : CourseUpdate) : CourseRead :=
  { cur with
    code := patch.code.apply cur.code
    title := patch.title.apply cur.title
    description := patch.description.applyOpt cur.description
    credits := patch.credits.apply cur.credits
    start_date := patch.start_date.applyOpt cur.start_date
    end_date := patch.end_date.applyOpt cur.end_date }

/-- Handler `update_course`: 404 when absent; else merge the present-and-non-null patch
fields, set `updated_at` to the current clock read, store and return. -/
def update_course (st : CourseStore) (course_id : UUID) (patch : CourseUpdate)
    (now : Timestamp) : Except ApiError CourseRead × CourseStore :=
  match storeGet st course_id with
  | none => (.error (.notFound "Course not found"), st)
  | some current =>
      let updated := { applyCoursePatch current patch with updated_at := now }
      (.ok updated, storeSet st course_id updated)

/-- Handler `delete_course`: 404 when absent, else remove the entry. -/
def delete_course (st : CourseStore) (course_id : UUID) :
    Except ApiError Unit × CourseStore :=
  if storeMem st course_id then
    (.ok (), storeDel st course_id)
  else
    (.error (.notFound "Course not found"), st)

/-! ### Enrollment data model (`src/models/enrollment.py`) -/

/-- Model of `Literal["enrolled", "waitlisted", "dropped", "completed"]`. -/
inductive EnrollmentStatus where
  | enrolled
  | waitlisted
  | dropped
  | completed
deriving DecidableEq

/-- Model of `EnrollmentCreate` (= `EnrollmentBase`): the create payload after
validation; the parse-time default `status = "enrolled"` and `grade = None`
are applied before this structure is formed. -/
structure EnrollmentCreate where
  course_id : UUID
  person_id : UUID
  status : EnrollmentStatus
  semester : String
  grade : Option String
deriving DecidableEq

/-- Model of `EnrollmentRead`: the stored record. -/
structure EnrollmentRead where
  course_id : UUID
  person_id : UUID
  status : EnrollmentStatus
  semester : String
  grade : Option String
  id : UUID
  created_at : Timestamp
  updated_at : Timestamp
deriving DecidableEq

/-- Model of `EnrollmentUpdate`: exposes only `status`, `grade` and `semester`. -/
structure EnrollmentUpdate where
  status : PatchField EnrollmentStatus
  grade : PatchField String
  semester : PatchField String
deriving DecidableEq

/-! ### Enrollment endpoints (`src/main.py`) -/

abbrev EnrollmentStore := List (UUID × EnrollmentRead)

/-- Handler `create_enrollment`: builds `EnrollmentRead(**enr.model_dump())` then 400 on id
collision, else store. -/
def create_enrollment (st : EnrollmentStore) (enr : EnrollmentCreate) (genId : UUID)
    (tCreated tUpdated : Timestamp) : Except ApiError EnrollmentRead × EnrollmentStore :=
  let new_enr : EnrollmentRead :=
    { course_id := enr.course_id, person_id := enr.person_id, status := enr.status,
      semester := enr.semester, grade := enr.grade, id := genId,
      created_at := tCreated, updated_at := tUpdated }
  if storeMem st new_enr.id then
    (.error (.duplicateKey "Enrollment with this ID already exists"), st)
  else
    (.ok new_enr, storeInsert st new_enr.id new_enr)

/-- Handler `get_enrollment`: 404 when absent, else the stored record. -/
def get_enrollment (st : EnrollmentStore) (enrollment_id : UUID) :
    Except ApiError EnrollmentRead × EnrollmentStore :=
  match storeGet st enrollment_id with
  | none => (.error (.notFound "Enrollment not found"), st)
  | some e => (.ok e, st)

/-- The dictionary-comprehension merge of `update_enrollment`: only the three
fields of `EnrollmentUpdate` can appear in the dump; `course_id` and
`person_id` are not part of the update shape. -/
def applyEnrollmentPatch (cur : EnrollmentRead) (patch : EnrollmentUpdate) :
    EnrollmentRead :=
  { cur with
    status := patch.status.apply cur.status
    grade := patch.grade.applyOpt cur.grade
    semester := patch.semester.apply cur.semester }

/-- Handler `update_enrollment`: 404 when absent; else merge present-and-non-null
fields, refresh `updated_at`, store and return. -/
def update_enrollment (st : EnrollmentStore) (enrollment_id : UUID)
    (patch : EnrollmentUpdate) (now : Timestamp) :
    Except ApiError EnrollmentRead × EnrollmentStore :=
  match storeGet st enrollment_id with
  | none => (.error (.notFound "Enrollment not found"), st)
  | some current =>
      let updated := { applyEnrollmentPatch current patch with updated_at := now }
      (.ok updated, storeSet st enrollment_id updated)

/-- Handler `delete_enrollment`: 404 when absent, else remove the entry. -/
def delete_enrollment (st : EnrollmentStore) (enrollment_id : UUID) :
    Except ApiError Unit × EnrollmentStore :=
  if storeMem st enrollment_id then
    (.ok (), storeDel st enrollment_id)
  else
    (.error (.notFound "Enrollment not found"), st)

/-! ### Raw POST bodies

`CourseCreate`/`EnrollmentCreate` declare no `id` member, and the models do not
set `model_config["extra"]`, so the pydantic default (`extra="ignore"`) silently
drops an `id` member supplied in the request body: parsing keeps only the
declared fields. -/

/-- A raw `POST /courses` JSON body, possibly carrying an `id` member. -/
structure CourseCreateBody where
  id : Option UUID
  code : String
  title : String
  description : Option String
  credits : Int
  start_date : Option CalDate
  end_date : Option CalDate
deriving DecidableEq

/-- Pydantic parse of the body into `CourseCreate`: the `id` member is ignored. -/
def parseCourseCreate (b : CourseCreateBody) : CourseCreate :=
  { code := b.code, title := b.title, description := b.description,
    credits := b.credits, start_date := b.start_date, end_date := b.end_date }

/-- The full `POST /courses` route: parse then `create_course`. -/
def post_courses (st : CourseStore) (b : CourseCreateBody) (genId : UUID)
    (tCreated tUpdated : Timestamp) : Except ApiError CourseRead × CourseStore :=
  create_course st (parseCourseCreate b) genId tCreated tUpdated

/-- A raw `POST /enrollments` JSON body, possibly carrying an `id` member. -/
structure EnrollmentCreateBody where
  id : Option UUID
  course_id : UUID
  person_id : UUID
  status : EnrollmentStatus
  semester : String
  grade : Option String
deriving DecidableEq

/-- Pydantic parse of the body into `EnrollmentCreate`: the `id` member is
ignored. -/
def parseEnrollmentCreate (b : EnrollmentCreateBody) : EnrollmentCreate :=
  { course_id := b.course_id, person_id := b.person_id, status := b.status,
    semester := b.semester, grade := b.grade }

/-- The full `POST /enrollments` route: parse then `create_enrollment`. -/
def post_enrollments (st : EnrollmentStore) (b : EnrollmentCreateBody) (genId : UUID)
    (tCreated tUpdated : Timestamp) : Except ApiError EnrollmentRead × EnrollmentStore :=
  create_enrollment st (parseEnrollmentCreate b) genId tCreated tUpdated

/-! ### Sample data used by witnesses and counterexamples -/

def sampleCourse : CourseRead :=
  { code := "COMS4701", title := "Artificial Intelligence", description := none,
    credits := 3, start_date := none, end_date := none, id := 1,
    created_at := 0, updated_at := 0 }

def sampleCourseStore : CourseStore := [(1, sampleCourse)]

def sampleEnroll : EnrollmentRead :=
  { course_id := 10, person_id := 20, status := .enrolled, semester := "Fall 2025",
    grade := none, id := 1, created_at := 0, updated_at := 0 }

def sampleEnrollStore : EnrollmentStore := [(1, sampleEnroll)]

def sampleCoursePatch : CourseUpdate :=
  { code := .unset, title := .unset, description := .null, credits := .set 4,
    start_date := .unset, end_date := .unset }

def sampleEnrollPatch : EnrollmentUpdate :=
  { status := .null, grade := .set "A", semester := .unset }

/-- Result of patching `sampleCourse` with `sampleCoursePatch` at clock read 9. -/
def sampleCoursePatched : CourseRead :=
  { sampleCourse with credits := 4, updated_at := 9 }

/-- Result of patching `sampleEnroll` with `sampleEnrollPatch` at clock read 9. -/
def sampleEnrollPatched : EnrollmentRead :=
  { sampleEnroll with grade := some "A", updated_at := 9 }

/-- A `POST /courses` body that supplies an `id` colliding with the record
already stored in `sampleCourseStore`. -/
def sampleDupIdBody : CourseCreateBody :=
  { id := some 1, code := "COMS4701", title := "AI", description := none,
    credits := 3, start_date := none, end_date := none }

/-- A course creation payload whose `title` is the empty string. -/
def emptyTitlePayload : CourseCreate :=
  { code := "COMS4701", title := "", description := none, credits := 3,
    start_date := none, end_date := none }

/-- The payload of the spec scenario
`{"code":"COMS4701","title":"AI","credits":3}` after parsing (defaults
applied). -/
def scenarioPayload : CourseCreate :=
  { code := "COMS4701", title := "AI", description := none, credits := 3,
    start_date := none, end_date := none }

/-- The record produced from `scenarioPayload` on a run where the clock
advanced between the `created_at` read (0) and the `updated_at` read (1). -/
def scenarioRecord : CourseRead :=
  { code := "COMS4701", title := "AI", description := none, credits := 3,
    start_date := none, end_date := none, id := 7, created_at := 0,
    updated_at := 1 }

/-- A create payload with the given code and credits (used at the validation
boundaries). -/
def boundaryPayload (cd : String) (cr : Int) : CourseCreate :=
  { code := cd, title := "AI", description := none, credits := cr,
    start_date := none, end_date := none }

/-- An enrollment creation payload matching `sampleEnroll`. -/
def sampleEnrollCreate : EnrollmentCreate :=
  { course_id := 10, person_id := 20, status := .enrolled,
    semester := "Fall 2025", grade := none }

/-- A `POST /enrollments` body that supplies an `id` colliding with the record
already stored in `sampleEnrollStore`. -/
def sampleEnrollDupIdBody : EnrollmentCreateBody :=
  { id := some 1, course_id := 10, person_id := 20, status := .enrolled,
    semester := "Fall 2025", grade := none }

/-- The record stored by `post_courses` for `sampleDupIdBody` with generated
id 2 at clock reads 5 and 5: the client-supplied id 1 is nowhere in it. -/
def dupBodyResult : CourseRead :=
  { code := "COMS4701", title := "AI", description := none, credits := 3,
    start_date := none, end_date := none, id := 2, created_at := 5,
    updated_at := 5 }

/-! ### Lemmas about the patch tri-state -/

theorem PatchField.apply_set {α : Type} (v : α) (old : α) :
    (PatchField.set v).apply old = v := rfl

theorem PatchField.apply_of_not_isSet {α : Type} {p : PatchField α} (old : α)
    (h : p.isSet = false) : p.apply old = old := by
  cases p <;> simp [PatchField.isSet] at h ⊢ <;> rfl

theorem PatchField.applyOpt_set {α : Type} (v : α) (old : Option α) :
    (PatchField.set v).applyOpt old = some v := rfl

theorem PatchField.applyOpt_of_not_isSet {α : Type} {p : PatchField α} (old : Option α)
    (h : p.isSet = false) : p.applyOpt old = old := by
  cases p <;> simp [PatchField.isSet] at h ⊢ <;> rfl

/-! ### Lemmas about the keyed table -/

theorem storeMem_eq_isSome {α : Type} (st : List (UUID × α)) (i : UUID) :
    storeMem st i = (storeGet st i).isSome := by
  induction st with
  | nil => rfl
  | cons p rest ih => by_cases h : p.1 = i <;> simp [storeMem, storeGet, h, ih]

theorem storeGet_eq_none_of_not_mem {α : Type} (st : List (UUID × α)) (i : UUID)
    (h : storeMem st i = false) : storeGet st i = none := by
  rw [storeMem_eq_isSome] at h
  cases hg : storeGet st i with
  | none => rfl
  | some v => rw [hg] at h; simp at h

theorem storeGet_insert_self {α : Type} (st : List (UUID × α)) (i : UUID) (v : α)
    (h : storeGet st i = none) : storeGet (storeInsert st i v) i = some v := by
  induction st with
  | nil => simp [storeInsert, storeGet]
  | cons p rest ih =>
      by_cases hp : p.1 = i
      · simp [storeGet, hp] at h
      · simp [storeGet, hp] at h
        simpa [storeInsert, storeGet, hp] using ih h

theorem storeGet_insert_ne {α : Type} (st : List (UUID × α)) (i j : UUID) (v : α)
    (h : i ≠ j) : storeGet (storeInsert st j v) i = storeGet st i := by
  induction st with
  | nil => simp [storeInsert, storeGet, Ne.symm h]
  | cons p rest ih =>
      by_cases hp : p.1 = i <;> simp [storeInsert, storeGet, hp] at ih ⊢
      simpa using ih

theorem storeMem_insert_ne {α : Type} (st : List (UUID × α)) (i j : UUID) (v : α)
    (h : i ≠ j) : storeMem (storeInsert st j v) i = storeMem st i := by
  rw [storeMem_eq_isSome, storeMem_eq_isSome, storeGet_insert_ne st i j v h]

theorem storeGet_set_of_mem {α : Type} (st : List (UUID × α)) (i : UUID) (v : α)
    (h : storeMem st i = true) : storeGet (storeSet st i v) i = some v := by
  induction st with
  | nil => simp [storeMem] at h
  | cons p rest ih =>
      by_cases hp : p.1 = i
      · simp [storeSet, storeGet, hp]
      · simp [storeMem, hp] at h
        simpa [storeSet, storeGet, hp] using ih h

theorem storeGet_set_ne {α : Type} (st : List (UUID × α)) (i j : UUID) (v : α)
    (h : i ≠ j) : storeGet (storeSet st j v) i = storeGet st i := by
  induction st with
  | nil => simp [storeSet, storeGet]
  | cons p rest ih =>
      by_cases hp : p.1 = j
      · simp [storeSet, storeGet, hp, h, Ne.symm h, ih]
      · by_cases hq : p.1 = i <;> simp [storeSet, storeGet, hp, hq, h, Ne.symm h, ih]

theorem storeMem_set {α : Type} (st : List (UUID × α)) (i j : UUID) (v : α) :
    storeMem (storeSet st j v) i = storeMem st i := by
  induction st with
  | nil => rfl
  | cons p rest ih =>
      by_cases hp : p.1 = j
      · simp [storeSet, storeMem, hp, ih]
      · simp [storeSet, storeMem, hp, ih]

theorem storeGet_del_self {α : Type} (st : List (UUID × α)) (i : UUID) :
    storeGet (storeDel st i) i = none := by
  induction st with
  | nil => rfl
  | cons p rest ih =>
      by_cases hp : p.1 = i <;> simp [storeDel, storeGet, hp, ih]

theorem storeGet_del_ne {α : Type} (st : List (UUID × α)) (i j : UUID)
    (h : i ≠ j) : storeGet (storeDel st j) i = storeGet st i := by
  induction st with
  | nil => rfl
  | cons p rest ih =>
      by_cases hp : p.1 = j
      · simp [storeDel, storeGet, hp, h, Ne.symm h, ih]
      · by_cases hq : p.1 = i <;> simp [storeDel, storeGet, hp, hq, h, Ne.symm h, ih]

theorem storeMem_del_self {α : Type} (st : List (UUID × α)) (i : UUID) :
    storeMem (storeDel st i) i = false := by
  rw [storeMem_eq_isSome, storeGet_del_self]
  rfl

theorem storeMem_del_of_not_mem {α : Type} (st : List (UUID × α)) (i j : UUID)
    (h : storeMem st i = false) : storeMem (storeDel st j) i = false := by
  by_cases hij : i = j
  · simpa [hij] using storeMem_del_self st j
  · rw [storeMem_eq_isSome, storeGet_del_ne st i j hij, ← storeMem_eq_isSome]
    exact h

/-! ### Membership preservation through the endpoints -/

theorem storeMem_update_course (st : CourseStore) (j : UUID) (p : CourseUpdate)
    (now : Timestamp) (i : UUID) :
    storeMem (update_course st j p now).2 i = storeMem st i := by
  cases hg : storeGet st j <;> simp [update_course, hg, storeMem_set]

theorem storeMem_update_enrollment (st : EnrollmentStore) (j : UUID)
    (q : EnrollmentUpdate) (now : Timestamp) (i : UUID) :
    storeMem (update_enrollment st j q now).2 i = storeMem st i := by
  cases hg : storeGet st j <;> simp [update_enrollment, hg, storeMem_set]

theorem storeMem_delete_course_of_not_mem (st : CourseStore) (j i : UUID)
    (h : storeMem st i = false) : storeMem (delete_course st j).2 i = false := by
  by_cases hj : storeMem st j <;>
    simp [delete_course, hj, storeMem_del_of_not_mem, h]

theorem storeMem_delete_enrollment_of_not_mem (st : EnrollmentStore) (j i : UUID)
    (h : storeMem st i = false) : storeMem (delete_enrollment st j).2 i = false := by
  by_cases hj : storeMem st j <;>
    simp [delete_enrollment, hj, storeMem_del_of_not_mem, h]

theorem storeMem_create_course_ne (st : CourseStore) (c : CourseCreate)
    (g : UUID) (t1 t2 : Timestamp) (i : UUID) (hne : g ≠ i)
    (h : storeMem st i = false) :
    storeMem (create_course st c g t1 t2).2 i = false := by
  by_cases hg : storeMem st g <;>
    simp [create_course, hg, h, storeMem_insert_ne st i g _ (Ne.symm hne)]

theorem storeMem_create_enrollment_ne (st : EnrollmentStore) (e : EnrollmentCreate)
    (g : UUID) (t1 t2 : Timestamp) (i : UUID) (hne : g ≠ i)
    (h : storeMem st i = false) :
    storeMem (create_enrollment st e g t1 t2).2 i = false := by
  by_cases hg : storeMem st g <;>
    simp [create_enrollment, hg, h, storeMem_insert_ne st i g _ (Ne.symm hne)]

/-! ### Claim theorems -/

/-- Claim C2: for every identifier and either store, `get`, `update` and
`delete` fail with the 404 NotFoundError if and only if the identifier is
absent from the mapping of that store, and on failure the store is left completely
unchanged. -/
theorem claim_C2_notfound_iff_absent
    (stc : CourseStore) (ste : EnrollmentStore) (i : UUID)
    (p : CourseUpdate) (q : EnrollmentUpdate) (now : Timestamp) :
    (((get_course stc i).1 = .error (.notFound "Course not found")) ↔
        storeMem stc i = false) ∧
    (get_course stc i).2 = stc ∧
    (((update_course stc i p now).1 = .error (.notFound "Course not found")) ↔
        storeMem stc i = false) ∧
    (storeMem stc i = false → (update_course stc i p now).2 = stc) ∧
    (((delete_course stc i).1 = .error (.notFound "Course not found")) ↔
        storeMem stc i = false) ∧
    (storeMem stc i = false → (delete_course stc i).2 = stc) ∧
    (((get_enrollment ste i).1 = .error (.notFound "Enrollment not found")) ↔
        storeMem ste i = false) ∧
    (get_enrollment ste i).2 = ste ∧
    (((update_enrollment ste i q now).1 = .error (.notFound "Enrollment not found")) ↔
        storeMem ste i = false) ∧
    (storeMem ste i = false → (update_enrollment ste i q now).2 = ste) ∧
    (((delete_enrollment ste i).1 = .error (.notFound "Enrollment not found")) ↔
        storeMem ste i = false) ∧
    (storeMem ste i = false → (delete_enrollment ste i).2 = ste) := by
  cases hg : storeGet stc i <;> cases hh : storeGet ste i <;>
    simp [get_course, update_course, delete_course, get_enrollment,
      update_enrollment, delete_enrollment, storeMem_eq_isSome, hg, hh]

/-- Witness for C2 at a concrete absent identifier (2 is not a key of either
sample store). -/
theorem claim_C2_notfound_iff_absent_witness :
    (((get_course sampleCourseStore 2).1 = .error (.notFound "Course not found")) ↔
        storeMem sampleCourseStore 2 = false) ∧
    (get_course sampleCourseStore 2).2 = sampleCourseStore ∧
    (((update_course sampleCourseStore 2 sampleCoursePatch 5).1 =
        .error (.notFound "Course not found")) ↔ storeMem sampleCourseStore 2 = false) ∧
    (storeMem sampleCourseStore 2 = false →
      (update_course sampleCourseStore 2 sampleCoursePatch 5).2 = sampleCourseStore) ∧
    (((delete_course sampleCourseStore 2).1 = .error (.notFound "Course not found")) ↔
        storeMem sampleCourseStore 2 = false) ∧
    (storeMem sampleCourseStore 2 = false →
      (delete_course sampleCourseStore 2).2 = sampleCourseStore) ∧
    (((get_enrollment sampleEnrollStore 2).1 = .error (.notFound "Enrollment not found")) ↔
        storeMem sampleEnrollStore 2 = false) ∧
    (get_enrollment sampleEnrollStore 2).2 = sampleEnrollStore ∧
    (((update_enrollment sampleEnrollStore 2 sampleEnrollPatch 5).1 =
        .error (.notFound "Enrollment not found")) ↔ storeMem sampleEnrollStore 2 = false) ∧
    (storeMem sampleEnrollStore 2 = false →
      (update_enrollment sampleEnrollStore 2 sampleEnrollPatch 5).2 = sampleEnrollStore) ∧
    (((delete_enrollment sampleEnrollStore 2).1 = .error (.notFound "Enrollment not found")) ↔
        storeMem sampleEnrollStore 2 = false) ∧
    (storeMem sampleEnrollStore 2 = false →
      (delete_enrollment sampleEnrollStore 2).2 = sampleEnrollStore) :=
  claim_C2_notfound_iff_absent sampleCourseStore sampleEnrollStore 2
    sampleCoursePatch sampleEnrollPatch 5

/-- Claim C5 counterexample: the payload whose `title` is the empty string
passes course validation — the `title` field of `CourseBase` is a bare `str`
with no non-emptiness constraint, so the empty title is accepted, not
rejected. -/
theorem claim_C5_counterexample :
    emptyTitlePayload.title = "" ∧ validCourseCreate emptyTitlePayload = true := by
  decide

/-- Claim C5 (amended): course validation does not inspect `title` at all — on
both the create and the update shape, replacing `title` by any string
(including the empty string) leaves the validation outcome unchanged. -/
theorem claim_C5_title_unconstrained (c : CourseCreate) (t : String)
    (p : CourseUpdate) (f : PatchField String) :
    validCourseCreate { c with title := t } = validCourseCreate c ∧
    validCourseUpdate { p with title := f } = validCourseUpdate p :=
  ⟨rfl, rfl⟩

/-- Claim C8: course validation accepts credits 0 and 6 and rejects -1 and 7,
accepts code "COMS4701" and rejects "CS1", both for the bare validators and
for full create payloads. -/
theorem claim_C8_validation_boundaries :
    validCredits 0 = true ∧ validCredits 6 = true ∧
    validCredits (-1) = false ∧ validCredits 7 = false ∧
    matchesCourseCode "COMS4701" = true ∧ matchesCourseCode "CS1" = false ∧
    validCourseCreate (boundaryPayload "COMS4701" 0) = true ∧
    validCourseCreate (boundaryPayload "COMS4701" 6) = true ∧
    validCourseCreate (boundaryPayload "COMS4701" (-1)) = false ∧
    validCourseCreate (boundaryPayload "COMS4701" 7) = false ∧
    validCourseCreate (boundaryPayload "CS1" 3) = false := by
  decide

/-- Claim C1: a successful partial update changes exactly the fields that are
present-and-non-null in the patch (plus `updated_at`); every field absent from
the patch or explicitly null keeps its previous stored value (null never
clears a field), `id` and `created_at` are untouched, and no other stored
record changes. Stated for both resources. -/
theorem claim_C1_update_frame
    (stc : CourseStore) (ste : EnrollmentStore) (i : UUID)
    (p : CourseUpdate) (q : EnrollmentUpdate) (now : Timestamp)
    (cur : CourseRead) (cure : EnrollmentRead) (r : CourseRead) (re : EnrollmentRead)
    (stc' : CourseStore) (ste' : EnrollmentStore)
    (hc : storeGet stc i = some cur)
    (he : storeGet ste i = some cure)
    (hr : update_course stc i p now = (.ok r, stc'))
    (hre : update_enrollment ste i q now = (.ok re, ste')) :
    (r.id = cur.id ∧ r.created_at = cur.created_at ∧ r.updated_at = now ∧
     (∀ v, p.code = .set v → r.code = v) ∧
     (p.code.isSet = false → r.code = cur.code) ∧
     (∀ v, p.title = .set v → r.title = v) ∧
     (p.title.isSet = false → r.title = cur.title) ∧
     (∀ v, p.description = .set v → r.description = some v) ∧
     (p.description.isSet = false → r.description = cur.description) ∧
     (∀ v, p.credits = .set v → r.credits = v) ∧
     (p.credits.isSet = false → r.credits = cur.credits) ∧
     (∀ v, p.start_date = .set v → r.start_date = some v) ∧
     (p.start_date.isSet = false → r.start_date = cur.start_date) ∧
     (∀ v, p.end_date = .set v → r.end_date = some v) ∧
     (p.end_date.isSet = false → r.end_date = cur.end_date) ∧
     storeGet stc' i = some r ∧
     (∀ j, j ≠ i → storeGet stc' j = storeGet stc j)) ∧
    (re.id = cure.id ∧ re.created_at = cure.created_at ∧ re.updated_at = now ∧
     re.course_id = cure.course_id ∧ re.person_id = cure.person_id ∧
     (∀ v, q.status = .set v → re.status = v) ∧
     (q.status.isSet = false → re.status = cure.status) ∧
     (∀ v, q.grade = .set v → re.grade = some v) ∧
     (q.grade.isSet = false → re.grade = cure.grade) ∧
     (∀ v, q.semester = .set v → re.semester = v) ∧
     (q.semester.isSet = false → re.semester = cure.semester) ∧
     storeGet ste' i = some re ∧
     (∀ j, j ≠ i → storeGet ste' j = storeGet ste j)) := by
  have hmc : storeMem stc i = true := by
    rw [storeMem_eq_isSome, hc]; rfl
  have hme : storeMem ste i = true := by
    rw [storeMem_eq_isSome, he]; rfl
  simp only [update_course, hc, Prod.mk.injEq] at hr
  simp only [update_enrollment, he, Prod.mk.injEq] at hre
  obtain ⟨hr1, hr2⟩ := hr
  obtain ⟨hre1, hre2⟩ := hre
  cases hr1
  cases hre1
  subst hr2
  subst hre2
  refine ⟨⟨rfl, rfl, rfl, ?_, ?_, ?_, ?_, ?_, ?_, ?_, ?_, ?_, ?_, ?_, ?_,
           storeGet_set_of_mem stc i _ hmc,
           fun j hj => storeGet_set_ne stc j i _ hj⟩,
          ⟨rfl, rfl, rfl, rfl, rfl, ?_, ?_, ?_, ?_, ?_, ?_,
           storeGet_set_of_mem ste i _ hme,
           fun j hj => storeGet_set_ne ste j i _ hj⟩⟩ <;>
    first
      | (intro v hv
         simp [applyCoursePatch, applyEnrollmentPatch, hv, PatchField.apply,
           PatchField.applyOpt])
      | (intro hns
         simp [applyCoursePatch, applyEnrollmentPatch,
           PatchField.apply_of_not_isSet _ hns, PatchField.applyOpt_of_not_isSet _ hns])

/-- Witness for C1: the sample course store (id 1) patched with
`{credits: 4, description: null}` and the sample enrollment store patched with
`{status: null, grade: "A"}` at clock read 9. -/
theorem claim_C1_update_frame_witness :
    (sampleCoursePatched.id = sampleCourse.id ∧
     sampleCoursePatched.created_at = sampleCourse.created_at ∧
     sampleCoursePatched.updated_at = 9 ∧
     (∀ v, sampleCoursePatch.code = .set v → sampleCoursePatched.code = v) ∧
     (sampleCoursePatch.code.isSet = false → sampleCoursePatched.code = sampleCourse.code) ∧
     (∀ v, sampleCoursePatch.title = .set v → sampleCoursePatched.title = v) ∧
     (sampleCoursePatch.title.isSet = false → sampleCoursePatched.title = sampleCourse.title) ∧
     (∀ v, sampleCoursePatch.description = .set v → sampleCoursePatched.description = some v) ∧
     (sampleCoursePatch.description.isSet = false →
       sampleCoursePatched.description = sampleCourse.description) ∧
     (∀ v, sampleCoursePatch.credits = .set v → sampleCoursePatched.credits = v) ∧
     (sampleCoursePatch.credits.isSet = false →
       sampleCoursePatched.credits = sampleCourse.credits) ∧
     (∀ v, sampleCoursePatch.start_date = .set v → sampleCoursePatched.start_date = some v) ∧
     (sampleCoursePatch.start_date.isSet = false →
       sampleCoursePatched.start_date = sampleCourse.start_date) ∧
     (∀ v, sampleCoursePatch.end_date = .set v → sampleCoursePatched.end_date = some v) ∧
     (sampleCoursePatch.end_date.isSet = false →
       sampleCoursePatched.end_date = sampleCourse.end_date) ∧
     storeGet [(1, sampleCoursePatched)] 1 = some sampleCoursePatched ∧
     (∀ j, j ≠ 1 → storeGet [(1, sampleCoursePatched)] j = storeGet sampleCourseStore j)) ∧
    (sampleEnrollPatched.id = sampleEnroll.id ∧
     sampleEnrollPatched.created_at = sampleEnroll.created_at ∧
     sampleEnrollPatched.updated_at = 9 ∧
     sampleEnrollPatched.course_id = sampleEnroll.course_id ∧
     sampleEnrollPatched.person_id = sampleEnroll.person_id ∧
     (∀ v, sampleEnrollPatch.status = .set v → sampleEnrollPatched.status = v) ∧
     (sampleEnrollPatch.status.isSet = false →
       sampleEnrollPatched.status = sampleEnroll.status) ∧
     (∀ v, sampleEnrollPatch.grade = .set v → sampleEnrollPatched.grade = some v) ∧
     (sampleEnrollPatch.grade.isSet = false →
       sampleEnrollPatched.grade = sampleEnroll.grade) ∧
     (∀ v, sampleEnrollPatch.semester = .set v → sampleEnrollPatched.semester = v) ∧
     (sampleEnrollPatch.semester.isSet = false →
       sampleEnrollPatched.semester = sampleEnroll.semester) ∧
     storeGet [(1, sampleEnrollPatched)] 1 = some sampleEnrollPatched ∧
     (∀ j, j ≠ 1 → storeGet [(1, sampleEnrollPatched)] j = storeGet sampleEnrollStore j)) :=
  claim_C1_update_frame sampleCourseStore sampleEnrollStore 1
    sampleCoursePatch sampleEnrollPatch 9 sampleCourse sampleEnroll
    sampleCoursePatched sampleEnrollPatched
    [(1, sampleCoursePatched)] [(1, sampleEnrollPatched)]
    rfl rfl rfl rfl

/-- Claim C3: `created_at` is assigned (once) at insertion from the creation
clock read; a successful partial update keeps `created_at` and sets
`updated_at` to the update clock read; `get` never mutates the store.  Stated
for both resources. -/
theorem claim_C3_timestamp_discipline
    (stc : CourseStore) (ste : EnrollmentStore) (c : CourseCreate)
    (e : EnrollmentCreate) (genId i : UUID) (t1 t2 now : Timestamp)
    (p : CourseUpdate) (q : EnrollmentUpdate) (cur : CourseRead) (cure : EnrollmentRead)
    (hgc : storeMem stc genId = false) (hge : storeMem ste genId = false)
    (hc : storeGet stc i = some cur) (he : storeGet ste i = some cure) :
    (∃ r, (create_course stc c genId t1 t2).1 = .ok r ∧ r.created_at = t1 ∧
       storeGet (create_course stc c genId t1 t2).2 genId = some r) ∧
    (∃ r, (update_course stc i p now).1 = .ok r ∧ r.created_at = cur.created_at ∧
       r.updated_at = now ∧ storeGet (update_course stc i p now).2 i = some r) ∧
    (get_course stc i).2 = stc ∧
    (∃ r, (create_enrollment ste e genId t1 t2).1 = .ok r ∧ r.created_at = t1 ∧
       storeGet (create_enrollment ste e genId t1 t2).2 genId = some r) ∧
    (∃ r, (update_enrollment ste i q now).1 = .ok r ∧ r.created_at = cure.created_at ∧
       r.updated_at = now ∧ storeGet (update_enrollment ste i q now).2 i = some r) ∧
    (get_enrollment ste i).2 = ste := by
  have hnc : storeGet stc genId = none := storeGet_eq_none_of_not_mem stc genId hgc
  have hnne : storeGet ste genId = none := storeGet_eq_none_of_not_mem ste genId hge
  have hmc : storeMem stc i = true := by rw [storeMem_eq_isSome, hc]; rfl
  have hme : storeMem ste i = true := by rw [storeMem_eq_isSome, he]; rfl
  refine ⟨?_, ?_, ?_, ?_, ?_, ?_⟩
  · simp only [create_course, hgc, Bool.false_eq_true, if_false]
    exact ⟨_, rfl, rfl, storeGet_insert_self stc genId _ hnc⟩
  · simp only [update_course, hc]
    exact ⟨_, rfl, rfl, rfl, storeGet_set_of_mem stc i _ hmc⟩
  · simp [get_course, hc]
  · simp only [create_enrollment, hge, Bool.false_eq_true, if_false]
    exact ⟨_, rfl, rfl, storeGet_insert_self ste genId _ hnne⟩
  · simp only [update_enrollment, he]
    exact ⟨_, rfl, rfl, rfl, storeGet_set_of_mem ste i _ hme⟩
  · simp [get_enrollment, he]

/-- Witness for C3 at the sample stores: creation under fresh id 2 at clock
read 3, update of id 1 at clock read 9. -/
theorem claim_C3_timestamp_discipline_witness :
    (∃ r, (create_course sampleCourseStore scenarioPayload 2 3 3).1 = .ok r ∧
       r.created_at = 3 ∧
       storeGet (create_course sampleCourseStore scenarioPayload 2 3 3).2 2 = some r) ∧
    (∃ r, (update_course sampleCourseStore 1 sampleCoursePatch 9).1 = .ok r ∧
       r.created_at = sampleCourse.created_at ∧ r.updated_at = 9 ∧
       storeGet (update_course sampleCourseStore 1 sampleCoursePatch 9).2 1 = some r) ∧
    (get_course sampleCourseStore 1).2 = sampleCourseStore ∧
    (∃ r, (create_enrollment sampleEnrollStore sampleEnrollCreate 2 3 3).1 = .ok r ∧
       r.created_at = 3 ∧
       storeGet (create_enrollment sampleEnrollStore sampleEnrollCreate 2 3 3).2 2 = some r) ∧
    (∃ r, (update_enrollment sampleEnrollStore 1 sampleEnrollPatch 9).1 = .ok r ∧
       r.created_at = sampleEnroll.created_at ∧ r.updated_at = 9 ∧
       storeGet (update_enrollment sampleEnrollStore 1 sampleEnrollPatch 9).2 1 = some r) ∧
    (get_enrollment sampleEnrollStore 1).2 = sampleEnrollStore :=
  claim_C3_timestamp_discipline sampleCourseStore sampleEnrollStore
    scenarioPayload sampleEnrollCreate 2 1 3 3 9 sampleCoursePatch sampleEnrollPatch
    sampleCourse sampleEnroll rfl rfl rfl rfl

/-- Claim C6: POST then GET by the returned id yields a record whose `code`,
`title`, `description`, `credits`, `start_date` and `end_date` equal the
posted values exactly; `id`, `created_at`, `updated_at` are the
server-assigned values. -/
theorem claim_C6_post_then_get
    (st : CourseStore) (c : CourseCreate) (genId : UUID) (t1 t2 : Timestamp)
    (h : storeMem st genId = false) :
    ∃ r, (create_course st c genId t1 t2).1 = .ok r ∧
      get_course (create_course st c genId t1 t2).2 genId =
        (.ok r, (create_course st c genId t1 t2).2) ∧
      r.code = c.code ∧ r.title = c.title ∧ r.description = c.description ∧
      r.credits = c.credits ∧ r.start_date = c.start_date ∧ r.end_date = c.end_date ∧
      r.id = genId ∧ r.created_at = t1 ∧ r.updated_at = t2 := by
  have hn : storeGet st genId = none := storeGet_eq_none_of_not_mem st genId h
  simp only [create_course, h, Bool.false_eq_true, if_false]
  refine ⟨_, rfl, ?_, rfl, rfl, rfl, rfl, rfl, rfl, rfl, rfl, rfl⟩
  simp [get_course, storeGet_insert_self st genId _ hn]

/-- Witness for C6: posting the scenario payload to the empty store with
generated id 7 at clock reads 3 and 4. -/
theorem claim_C6_post_then_get_witness :
    ∃ r, (create_course [] scenarioPayload 7 3 4).1 = .ok r ∧
      get_course (create_course [] scenarioPayload 7 3 4).2 7 =
        (.ok r, (create_course [] scenarioPayload 7 3 4).2) ∧
      r.code = scenarioPayload.code ∧ r.title = scenarioPayload.title ∧
      r.description = scenarioPayload.description ∧
      r.credits = scenarioPayload.credits ∧
      r.start_date = scenarioPayload.start_date ∧
      r.end_date = scenarioPayload.end_date ∧
      r.id = 7 ∧ r.created_at = 3 ∧ r.updated_at = 4 :=
  claim_C6_post_then_get [] scenarioPayload 7 3 4 rfl

/-- Claim C7: after a successful delete, a get of that id yields 404 and a
second delete yields 404; moreover no update, delete, or create with a
different generated id re-introduces the deleted id.  Stated for both
resources. -/
theorem claim_C7_delete_then_gone
    (stc : CourseStore) (ste : EnrollmentStore) (i : UUID)
    (stc' : CourseStore) (ste' : EnrollmentStore)
    (hc : delete_course stc i = (.ok (), stc'))
    (he : delete_enrollment ste i = (.ok (), ste')) :
    (get_course stc' i).1 = .error (.notFound "Course not found") ∧
    (delete_course stc' i).1 = .error (.notFound "Course not found") ∧
    (get_enrollment ste' i).1 = .error (.notFound "Enrollment not found") ∧
    (delete_enrollment ste' i).1 = .error (.notFound "Enrollment not found") ∧
    (∀ j p now, storeMem (update_course stc' j p now).2 i = false) ∧
    (∀ j, storeMem (delete_course stc' j).2 i = false) ∧
    (∀ cc g t1 t2, g ≠ i → storeMem (create_course stc' cc g t1 t2).2 i = false) ∧
    (∀ j q now, storeMem (update_enrollment ste' j q now).2 i = false) ∧
    (∀ j, storeMem (delete_enrollment ste' j).2 i = false) ∧
    (∀ ee g t1 t2, g ≠ i → storeMem (create_enrollment ste' ee g t1 t2).2 i = false) := by
  by_cases hmc : storeMem stc i = true
  case neg => simp [delete_course, hmc] at hc
  by_cases hme : storeMem ste i = true
  case neg => simp [delete_enrollment, hme] at he
  simp only [delete_course, hmc, if_true, Prod.mk.injEq, true_and] at hc
  simp only [delete_enrollment, hme, if_true, Prod.mk.injEq, true_and] at he
  subst hc
  subst he
  have hfc : storeMem (storeDel stc i) i = false := storeMem_del_self stc i
  have hfe : storeMem (storeDel ste i) i = false := storeMem_del_self ste i
  refine ⟨?_, ?_, ?_, ?_, ?_, ?_, ?_, ?_, ?_, ?_⟩
  · simp [get_course, storeGet_del_self]
  · simp [delete_course, hfc]
  · simp [get_enrollment, storeGet_del_self]
  · simp [delete_enrollment, hfe]
  · intro j p now
    rw [storeMem_update_course]
    exact hfc
  · intro j
    exact storeMem_delete_course_of_not_mem _ j i hfc
  · intro cc g t1 t2 hne
    exact storeMem_create_course_ne _ cc g t1 t2 i hne hfc
  · intro j q now
    rw [storeMem_update_enrollment]
    exact hfe
  · intro j
    exact storeMem_delete_enrollment_of_not_mem _ j i hfe
  · intro ee g t1 t2 hne
    exact storeMem_create_enrollment_ne _ ee g t1 t2 i hne hfe

/-- Witness for C7: deleting id 1 from both sample stores empties them; all
subsequent lookups and deletes of id 1 fail. -/
theorem claim_C7_delete_then_gone_witness :
    (get_course [] 1).1 = .error (.notFound "Course not found") ∧
    (delete_course [] 1).1 = .error (.notFound "Course not found") ∧
    (get_enrollment [] 1).1 = .error (.notFound "Enrollment not found") ∧
    (delete_enrollment [] 1).1 = .error (.notFound "Enrollment not found") ∧
    (∀ j p now, storeMem (update_course [] j p now).2 1 = false) ∧
    (∀ j, storeMem (delete_course [] j).2 1 = false) ∧
    (∀ cc g t1 t2, g ≠ 1 → storeMem (create_course [] cc g t1 t2).2 1 = false) ∧
    (∀ j q now, storeMem (update_enrollment [] j q now).2 1 = false) ∧
    (∀ j, storeMem (delete_enrollment [] j).2 1 = false) ∧
    (∀ ee g t1 t2, g ≠ 1 → storeMem (create_enrollment [] ee g t1 t2).2 1 = false) :=
  claim_C7_delete_then_gone sampleCourseStore sampleEnrollStore 1 [] [] rfl rfl

/-- Claim C9 counterexample: on a run where the process clock advanced between
the `created_at` factory read (0) and the `updated_at` factory read (1) — the
code calls `datetime.utcnow()` separately for each field — the scenario POST
succeeds but returns `created_at ≠ updated_at`, so the claimed equality is not
guaranteed by the code. -/
theorem claim_C9_counterexample :
    validCourseCreate scenarioPayload = true ∧
    create_course [] scenarioPayload 7 0 1 =
      (.ok scenarioRecord, [(7, scenarioRecord)]) ∧
    scenarioRecord.created_at ≠ scenarioRecord.updated_at := by
  decide

/-- Claim C9 (amended): the scenario POST is valid and succeeds with a
server-generated id, `description = null`, and `created_at`/`updated_at` each
set from its own clock read at creation; the two are equal exactly when those
two reads coincide. -/
theorem claim_C9_scenario
    (st : CourseStore) (genId : UUID) (t1 t2 : Timestamp)
    (h : storeMem st genId = false) :
    validCourseCreate scenarioPayload = true ∧
    ∃ r, (create_course st scenarioPayload genId t1 t2).1 = .ok r ∧
      r.id = genId ∧ r.description = none ∧ r.credits = 3 ∧
      r.created_at = t1 ∧ r.updated_at = t2 ∧
      (t1 = t2 → r.created_at = r.updated_at) ∧
      storeGet (create_course st scenarioPayload genId t1 t2).2 genId = some r := by
  have hn : storeGet st genId = none := storeGet_eq_none_of_not_mem st genId h
  refine ⟨by decide, ?_⟩
  simp only [create_course, h, Bool.false_eq_true, if_false]
  exact ⟨_, rfl, rfl, rfl, rfl, rfl, rfl, fun ht => ht,
    storeGet_insert_self st genId _ hn⟩

/-- Witness for C9 (amended) on the empty store with generated id 7 and
coinciding clock reads 4 and 4. -/
theorem claim_C9_scenario_witness :
    validCourseCreate scenarioPayload = true ∧
    ∃ r, (create_course [] scenarioPayload 7 4 4).1 = .ok r ∧
      r.id = 7 ∧ r.description = none ∧ r.credits = 3 ∧
      r.created_at = 4 ∧ r.updated_at = 4 ∧
      ((4 : Timestamp) = 4 → r.created_at = r.updated_at) ∧
      storeGet (create_course [] scenarioPayload 7 4 4).2 7 = some r :=
  claim_C9_scenario [] 7 4 4 rfl

/-- Claim C10: the enrollment update shape exposes only `status`, `grade` and
`semester`, so a partial update never changes `course_id` or `person_id`. -/
theorem claim_C10_enrollment_refs_immutable
    (ste : EnrollmentStore) (i : UUID) (q : EnrollmentUpdate) (now : Timestamp)
    (cure : EnrollmentRead) (he : storeGet ste i = some cure) :
    ∃ r, (update_enrollment ste i q now).1 = .ok r ∧
      r.course_id = cure.course_id ∧ r.person_id = cure.person_id ∧
      storeGet (update_enrollment ste i q now).2 i = some r ∧
      (∀ j, j ≠ i → storeGet (update_enrollment ste i q now).2 j = storeGet ste j) := by
  have hme : storeMem ste i = true := by rw [storeMem_eq_isSome, he]; rfl
  simp only [update_enrollment, he]
  exact ⟨_, rfl, rfl, rfl, storeGet_set_of_mem ste i _ hme,
    fun j hj => storeGet_set_ne ste j i _ hj⟩

/-- Witness for C10 at the sample enrollment store. -/
theorem claim_C10_enrollment_refs_immutable_witness :
    ∃ r, (update_enrollment sampleEnrollStore 1 sampleEnrollPatch 9).1 = .ok r ∧
      r.course_id = sampleEnroll.course_id ∧ r.person_id = sampleEnroll.person_id ∧
      storeGet (update_enrollment sampleEnrollStore 1 sampleEnrollPatch 9).2 1 = some r ∧
      (∀ j, j ≠ 1 →
        storeGet (update_enrollment sampleEnrollStore 1 sampleEnrollPatch 9).2 j =
          storeGet sampleEnrollStore j) :=
  claim_C10_enrollment_refs_immutable sampleEnrollStore 1 sampleEnrollPatch 9
    sampleEnroll rfl

/-- Claim C4 counterexample: the body supplies `id = 1`, which is exactly the
id already stored in `sampleCourseStore`, yet the POST is not rejected: the
create shape has no `id` field, pydantic drops the member, and the record is
stored under the server-generated id 2 with the existing record untouched. -/
theorem claim_C4_counterexample :
    sampleDupIdBody.id = some 1 ∧
    storeMem sampleCourseStore 1 = true ∧
    post_courses sampleCourseStore sampleDupIdBody 2 5 5 =
      (Except.ok dupBodyResult, storeInsert sampleCourseStore 2 dupBodyResult) ∧
    (post_courses sampleCourseStore sampleDupIdBody 2 5 5).1 ≠
      Except.error (ApiError.duplicateKey "Course with this ID already exists") ∧
    dupBodyResult.id = 2 ∧
    storeGet (storeInsert sampleCourseStore 2 dupBodyResult) 1 = some sampleCourse := by
  decide

/-- Claim C4 (amended): the server generates the record identifier; an
identifier supplied in the request body is ignored by parsing (the create
shapes declare no `id` field), and the 400 DuplicateKeyError arises exactly
when the server-generated identifier already keys a record — in which case
nothing is stored — otherwise the record is stored under the generated id. -/
theorem claim_C4_id_server_generated
    (stc : CourseStore) (ste : EnrollmentStore) (b : CourseCreateBody)
    (be : EnrollmentCreateBody) (o oe : Option UUID) (genId : UUID)
    (t1 t2 : Timestamp) :
    post_courses stc { b with id := o } genId t1 t2 = post_courses stc b genId t1 t2 ∧
    (((post_courses stc b genId t1 t2).1 =
        .error (.duplicateKey "Course with this ID already exists")) ↔
      storeMem stc genId = true) ∧
    (storeMem stc genId = true → (post_courses stc b genId t1 t2).2 = stc) ∧
    (storeMem stc genId = false →
      ∃ r, (post_courses stc b genId t1 t2).1 = .ok r ∧ r.id = genId ∧
        storeGet (post_courses stc b genId t1 t2).2 genId = some r) ∧
    post_enrollments ste { be with id := oe } genId t1 t2 =
      post_enrollments ste be genId t1 t2 ∧
    (((post_enrollments ste be genId t1 t2).1 =
        .error (.duplicateKey "Enrollment with this ID already exists")) ↔
      storeMem ste genId = true) ∧
    (storeMem ste genId = true → (post_enrollments ste be genId t1 t2).2 = ste) ∧
    (storeMem ste genId = false →
      ∃ r, (post_enrollments ste be genId t1 t2).1 = .ok r ∧ r.id = genId ∧
        storeGet (post_enrollments ste be genId t1 t2).2 genId = some r) := by
  refine ⟨rfl, ?_, ?_, ?_, rfl, ?_, ?_, ?_⟩
  · by_cases hm : storeMem stc genId = true <;>
      simp [post_courses, create_course, hm]
  · intro hm
    simp [post_courses, create_course, hm]
  · intro hm
    have hn : storeGet stc genId = none := storeGet_eq_none_of_not_mem stc genId hm
    simp only [post_courses, create_course, hm, Bool.false_eq_true, if_false]
    exact ⟨_, rfl, rfl, storeGet_insert_self stc genId _ hn⟩
  · by_cases hm : storeMem ste genId = true <;>
      simp [post_enrollments, create_enrollment, hm]
  · intro hm
    simp [post_enrollments, create_enrollment, hm]
  · intro hm
    have hn : storeGet ste genId = none := storeGet_eq_none_of_not_mem ste genId hm
    simp only [post_enrollments, create_enrollment, hm, Bool.false_eq_true, if_false]
    exact ⟨_, rfl, rfl, storeGet_insert_self ste genId _ hn⟩

/-- Witness for C4 (amended) at the sample stores with bodies supplying a
colliding id, overridden ids 3, generated id 2 and clock reads 5, 5. -/
theorem claim_C4_id_server_generated_witness :
    post_courses sampleCourseStore { sampleDupIdBody with id := some 3 } 2 5 5 =
      post_courses sampleCourseStore sampleDupIdBody 2 5 5 ∧
    (((post_courses sampleCourseStore sampleDupIdBody 2 5 5).1 =
        .error (.duplicateKey "Course with this ID already exists")) ↔
      storeMem sampleCourseStore 2 = true) ∧
    (storeMem sampleCourseStore 2 = true →
      (post_courses sampleCourseStore sampleDupIdBody 2 5 5).2 = sampleCourseStore) ∧
    (storeMem sampleCourseStore 2 = false →
      ∃ r, (post_courses sampleCourseStore sampleDupIdBody 2 5 5).1 = .ok r ∧
        r.id = 2 ∧
        storeGet (post_courses sampleCourseStore sampleDupIdBody 2 5 5).2 2 = some r) ∧
    post_enrollments sampleEnrollStore { sampleEnrollDupIdBody with id := some 3 } 2 5 5 =
      post_enrollments sampleEnrollStore sampleEnrollDupIdBody 2 5 5 ∧
    (((post_enrollments sampleEnrollStore sampleEnrollDupIdBody 2 5 5).1 =
        .error (.duplicateKey "Enrollment with this ID already exists")) ↔
      storeMem sampleEnrollStore 2 = true) ∧
    (storeMem sampleEnrollStore 2 = true →
      (post_enrollments sampleEnrollStore sampleEnrollDupIdBody 2 5 5).2 =
        sampleEnrollStore) ∧
    (storeMem sampleEnrollStore 2 = false →
      ∃ r, (post_enrollments sampleEnrollStore sampleEnrollDupIdBody 2 5 5).1 = .ok r ∧
        r.id = 2 ∧
        storeGet (post_enrollments sampleEnrollStore sampleEnrollDupIdBody 2 5 5).2 2 =
          some r) :=
  claim_C4_id_server_generated sampleCourseStore sampleEnrollStore
    sampleDupIdBody sampleEnrollDupIdBody (some 3) (some 3) 2 5 5

end SimpleMicroservices
